import Mathlib

/-!
Verification development for the `discord.js-paginator` library
(`Shane4368/discord.js-paginator`).  The definitions below are a shallow
embedding of the feature-complete `Paginator` class: the string helpers
(`String.prototype.replace` with a string pattern, `parseInt`), the embed
template merge `_mergeEmbedTemplate`, the navigation dispatch
`_onReactionAdded`, and the lifecycle operations `start` / `destroy`.
JavaScript truthiness of the relevant fields is modelled explicitly
(`none` and the empty string are falsy for strings, `0` is falsy for
numbers, objects are truthy exactly when present), and in-place object
mutation plus the footer aliasing between a page and the template is
modelled by returning the updated page, template, and session state.
-/

namespace DJSPaginator

/-! ### Strings: `String.prototype.replace` with a string pattern

`page.replace("{0}", s)` in JavaScript replaces only the first occurrence
of the pattern, or inserts `s` at the front when the pattern is empty. -/

/-- First-occurrence replacement on character lists: the JavaScript
`String.prototype.replace(pattern, replacement)` behaviour for plain
string patterns. -/
def replaceFirstL (pat repl : List Char) : List Char → List Char
  | [] => if pat = [] then repl else []
  | c :: rest =>
    if pat.isPrefixOf (c :: rest) then repl ++ (c :: rest).drop pat.length
    else c :: replaceFirstL pat repl rest

/-- String wrapper of `replaceFirstL`. -/
def jsReplaceFirst (pat repl s : String) : String :=
  String.mk (replaceFirstL pat.data repl.data s.data)

/-- `Paginator._renderPageNumber`: substitute the first `"{0}"` by the
1-based current page index and then the first `"{1}"` by the page count. -/
def renderPageNumber (currentPageIndex pageCount : Int) (page : String) : String :=
  jsReplaceFirst "{1}" (toString pageCount)
    (jsReplaceFirst "{0}" (toString (currentPageIndex + 1)) page)

/-! ### `parseInt` (default radix) -/

/-- JavaScript whitespace accepted by `parseInt` (common subset). -/
def isJsSpace (c : Char) : Bool :=
  c = ' ' || c = '\t' || c = '\n' || c = '\r'

/-- Value of a hexadecimal digit character. -/
def hexVal (c : Char) : Option Nat :=
  if '0' ≤ c ∧ c ≤ '9' then some (c.toNat - '0'.toNat)
  else if 'a' ≤ c ∧ c ≤ 'f' then some (c.toNat - 'a'.toNat + 10)
  else if 'A' ≤ c ∧ c ≤ 'F' then some (c.toNat - 'A'.toNat + 10)
  else none

/-- Parse the maximal prefix of digits valid in the given radix;
`none` when no digit was consumed (the `NaN` case). -/
def parseDigits (radix : Nat) : List Char → Nat → Bool → Option Nat
  | [], acc, seen => if seen then some acc else none
  | c :: rest, acc, seen =>
    match hexVal c with
    | some v =>
      if v < radix then parseDigits radix rest (acc * radix + v) true
      else if seen then some acc else none
    | none => if seen then some acc else none

/-- JavaScript `parseInt(s)` with the radix argument omitted: skip
whitespace, read an optional sign, honour a `0x`/`0X` hexadecimal
prefix, and parse the maximal digit prefix; `none` models `NaN`. -/
def jsParseInt (s : String) : Option Int :=
  let cs := s.data.dropWhile isJsSpace
  let sgn : Bool × List Char :=
    match cs with
    | '-' :: rest => (true, rest)
    | '+' :: rest => (false, rest)
    | _ => (false, cs)
  let rad : Nat × List Char :=
    match sgn.2 with
    | '0' :: 'x' :: rest => (16, rest)
    | '0' :: 'X' :: rest => (16, rest)
    | _ => (10, sgn.2)
  match parseDigits rad.1 rad.2 0 false with
  | some n => some (if sgn.1 then -(n : Int) else (n : Int))
  | none => none

/-! ### First-occurrence characterization of `replaceFirstL` -/

theorem replaceFirstL_firstOcc (pat repl a b : List Char) (hpat : pat ≠ [])
    (h : ∀ i, i < a.length → pat.isPrefixOf ((a ++ (pat ++ b)).drop i) = false) :
    replaceFirstL pat repl (a ++ (pat ++ b)) = a ++ (repl ++ b) := by
  induction a with
  | nil =>
    obtain ⟨c, pt, rfl⟩ : ∃ c pt, pat = c :: pt := by
      cases pat with
      | nil => exact absurd rfl hpat
      | cons c pt => exact ⟨c, pt, rfl⟩
    show replaceFirstL (c :: pt) repl (c :: (pt ++ b)) = [] ++ (repl ++ b)
    rw [replaceFirstL]
    have hpre : (c :: pt).isPrefixOf (c :: (pt ++ b)) = true := by
      rw [List.isPrefixOf_iff_prefix]
      exact List.prefix_append (c :: pt) b
    rw [if_pos hpre]
    simp [List.drop_left]
  | cons c a2 ih =>
    have h0 := h 0 (by simp)
    simp only [List.drop_zero, List.cons_append] at h0
    show replaceFirstL pat repl (c :: (a2 ++ (pat ++ b))) = c :: (a2 ++ (repl ++ b))
    rw [replaceFirstL, h0]
    simp only [Bool.false_eq_true, if_false, List.cons.injEq, true_and]
    exact ih fun i hi => by
      have := h (i + 1) (by simpa using Nat.succ_lt_succ hi)
      simpa using this

/-! ### Data model: embeds, pages, and the Paginator state

Optional string/number fields carry JavaScript truthiness: `none` and
`some ""` are falsy for strings, `none` and `some 0` for numbers, and an
optional object is truthy exactly when it is `some`. -/

/-- Embed footer (`{ text?, icon_url? }`). -/
structure EmbedFooter where
  text : Option String := none
  icon_url : Option String := none
deriving DecidableEq, Repr

/-- Embed author (`{ name?, icon_url?, url? }`). -/
structure EmbedAuthor where
  name : Option String := none
  icon_url : Option String := none
  url : Option String := none
deriving DecidableEq, Repr

/-- Embed image / thumbnail (`{ url }`). -/
structure EmbedMedia where
  url : Option String := none
deriving DecidableEq, Repr

/-- One entry of an embed field list. -/
structure EmbedField where
  name : Option String := none
  value : Option String := none
  inline : Option Bool := none
deriving DecidableEq, Repr

/-- The internal `MessageEmbed` shape used by the paginator. -/
structure MessageEmbed where
  title : Option String := none
  description : Option String := none
  url : Option String := none
  timestamp : Option Int := none
  color : Option Int := none
  footer : Option EmbedFooter := none
  image : Option EmbedMedia := none
  thumbnail : Option EmbedMedia := none
  author : Option EmbedAuthor := none
  fields : Option (List EmbedField) := none
deriving DecidableEq, Repr

/-- A page is either a plain string or an embed
(`Array<string | MessageEmbed>`). -/
inductive Page where
  | text (s : String)
  | embed (e : MessageEmbed)
deriving DecidableEq, Repr

/-- `PaginatorEmojis`: each entry is the configured symbol or `null`. -/
structure PaginatorEmojis where
  front : Option String := none
  rear : Option String := none
  back : Option String := none
  next : Option String := none
  stop : Option String := none
  jump : Option String := none
  trash : Option String := none
  info : Option String := none
deriving DecidableEq, Repr

/-- `PaginatorEmojisDefault` from the source. -/
def PaginatorEmojisDefault : PaginatorEmojis :=
  { front := some "⏮", rear := some "⏭", back := some "◀", next := some "▶",
    stop := some "⏹️", jump := some "🔢", trash := some "🗑", info := some "ℹ️" }

/-- The mutable state of one `Paginator` instance.  `collectorStops`
models `_collector`: `none` while no reaction collector exists, and
`some k` for a collector on which `stop()` was called `k` times.
`messageSet` models whether `_message` is non-null.  Fields the
validator checks with `typeof x === "string"` are `Option String`,
`none` standing for a missing or non-string value. -/
structure Paginator where
  destroyed : Bool := false
  collectorStops : Option Nat := none
  embedFooterFormat : Option String := none
  messageSet : Bool := false
  currentPageIndex : Int := 0
  running : Bool := false
  circular : Bool := true
  content : Option String := none
  embed : Option MessageEmbed := none
  emojis : PaginatorEmojis := PaginatorEmojisDefault
  pages : List Page := []
  userID : Option String := none
  infoText : Option String := some "This is a paginator. React to change page."
  jumpPrompt : Option String := some "Enter page number to jump to."
  jumpShowPrompt : Bool := true
  jumpDeleteResponse : Bool := true
  pageCount : Int := 0
  lastPageIndex : Int := -1
deriving DecidableEq, Repr

/-- The state produced by `new Paginator()` with no data. -/
def defaultPaginator : Paginator := {}

/-- `addPage`: push a page and bump the cached count and last index. -/
def addPage (p : Paginator) (pg : Page) : Paginator :=
  { p with pages := p.pages ++ [pg], pageCount := p.pageCount + 1,
           lastPageIndex := p.lastPageIndex + 1 }

/-- `setPages`: replace the page list, recomputing count and last index. -/
def setPages (p : Paginator) (pgs : List Page) : Paginator :=
  { p with pages := pgs, pageCount := (pgs.length : Int),
           lastPageIndex := (pgs.length : Int) - 1 }

/-- `listen`: set the user id the collector filters on. -/
def listen (p : Paginator) (uid : String) : Paginator :=
  { p with userID := some uid }

/-- JavaScript truthiness of an optional string (`""` is falsy). -/
def strTruthy : Option String → Bool
  | some s => s ≠ ""
  | none => false

/-- JavaScript truthiness of an optional number (`0` is falsy). -/
def intTruthy : Option Int → Bool
  | some n => n ≠ 0
  | none => false

/-- `this._embed.fields && this._embed.fields.length > 0`. -/
def fieldsTruthy : Option (List EmbedField) → Bool
  | some fs => fs.length ≠ 0
  | none => false

/-! ### `_mergeEmbedTemplate` -/

/-- `Paginator._footerFormat`, the hard default footer format. -/
def footerFormatDefault : String := "Page {0}/{1}"

/-- The field-by-field template overwrite performed at the top of
`_mergeEmbedTemplate` when `this._embed != null`: every truthy template
field wins over the page's field. -/
def overwriteFromTemplate (t e : MessageEmbed) : MessageEmbed :=
  { e with
    author := if t.author.isSome then t.author else e.author,
    color := if intTruthy t.color then t.color else e.color,
    description := if strTruthy t.description then t.description else e.description,
    fields := if fieldsTruthy t.fields then t.fields else e.fields,
    footer := if t.footer.isSome then t.footer else e.footer,
    image := if t.image.isSome then t.image else e.image,
    thumbnail := if t.thumbnail.isSome then t.thumbnail else e.thumbnail,
    timestamp := if intTruthy t.timestamp then t.timestamp else e.timestamp,
    title := if strTruthy t.title then t.title else e.title,
    url := if strTruthy t.url then t.url else e.url }

/-- `_mergeEmbedTemplate(embed)`.  Returns the merged embed together with
the updated session state.  The source mutates the argument object in
place, so the returned embed is also the new value of the stored page;
and when the template supplies the footer, `embed.footer` aliases the
template's footer object, so the final `embed.footer.text = ...` write
also lands on the template — modelled by the updated `embed` field of
the returned state. -/
def mergeEmbedTemplate (p : Paginator) (embed : MessageEmbed) : MessageEmbed × Paginator :=
  let e1 : MessageEmbed :=
    match p.embed with
    | some t => overwriteFromTemplate t embed
    | none => embed
  let fmt : String :=
    match p.embedFooterFormat with
    | some f => f
    | none =>
      match e1.footer with
      | some f =>
        match f.text with
        | some s => if s = "" then footerFormatDefault else s
        | none => footerFormatDefault
      | none => footerFormatDefault
  let newText : String := renderPageNumber p.currentPageIndex p.pageCount fmt
  let baseFooter : EmbedFooter :=
    match e1.footer with
    | some f => f
    | none => { text := some footerFormatDefault }
  let result : MessageEmbed := { e1 with footer := some { baseFooter with text := some newText } }
  let newTemplate : Option MessageEmbed :=
    match p.embed with
    | some t =>
      match t.footer with
      | some tf => some { t with footer := some { tf with text := some newText } }
      | none => some t
    | none => none
  (result, { p with embedFooterFormat := some fmt, embed := newTemplate })

/-- Footer text carried by an embed. -/
def footerText (e : MessageEmbed) : Option String :=
  match e.footer with
  | some f => f.text
  | none => none

/-! ### Effects and errors

Calls the paginator makes on its collaborators (the transport and its
own event emitter), in program order.  A JavaScript `TypeError` raised
by dereferencing a null field through `!` is modelled by `Except.error`. -/

/-- One observable call issued by the paginator. -/
inductive Effect where
  | sendMessage
  | editMessage
  | react (emoji : String)
  | openCollector
  | stopCollector
  | deleteMessage
  | emitEnd (reason : String)
  | emitError (message : String)
  | removeReaction
  | sendPrompt
  | deletePrompt
  | deleteResponse
  | sendInfo
  | deleteInfo
deriving DecidableEq, Repr

/-- The `TypeError` message for `this._collector!.stop()` on a null
collector. -/
def collectorNullError : String := "TypeError: cannot call stop on null collector"

/-- The `TypeError` message for dereferencing `this._message!` while it
is null. -/
def messageNullError : String := "TypeError: cannot dereference null message"

/-! ### `destroy` -/

/-- `destroy()`: set the `destroyed` flag, then call
`this._collector!.stop()` — a `TypeError` when no collector exists —
and emit the end notification.  Every call issues another `stop()`. -/
def destroy (p : Paginator) : Except String (Paginator × List Effect) :=
  match p.collectorStops with
  | none => Except.error collectorNullError
  | some k =>
    Except.ok ({ p with destroyed := true, collectorStops := some (k + 1) },
      [Effect.stopCollector, Effect.emitEnd "Paginator was destroyed."])

/-! ### `_validate` -/

/-- `_validate()`: the first failing check's error message, or `none`
when the configuration is valid.  Checks run in source order. -/
def validationError (p : Paginator) : Option String :=
  if p.destroyed then some "Tried to use Paginator after it was destroyed."
  else if p.pageCount = 0 then some "Paginator must have at least 1 page."
  else if ¬(p.emojis.back.isSome ∧ p.emojis.next.isSome) then
    some "emojis must have a back and next property."
  else if p.userID.isNone then some "userID must be of type string."
  else if p.infoText.isNone then some "infoOptions.text must be of type string."
  else if p.jumpPrompt.isNone then some "jumpOptions.prompt must be of type string."
  else none

/-! ### Message rendering -/

/-- JavaScript array read `pages[i]` (`undefined` for out-of-range). -/
def jsGetPage (l : List Page) (i : Int) : Option Page :=
  if 0 ≤ i then l.get? i.toNat else none

/-- In-place update of the stored page object at index `i`. -/
def jsSetPage (l : List Page) (i : Int) (pg : Page) : List Page :=
  if 0 ≤ i then l.set i.toNat pg else l

/-- `_setMessage(channel)`: send page 0 (merging the template for embed
pages, which mutates the stored page and the session state). -/
def setMessage (p : Paginator) : Except String (Paginator × List Effect) :=
  match p.pages.head? with
  | some (Page.text _) => Except.ok ({ p with messageSet := true }, [Effect.sendMessage])
  | some (Page.embed e) =>
    let m := mergeEmbedTemplate p e
    Except.ok ({ m.2 with messageSet := true, pages := jsSetPage m.2.pages 0 (Page.embed m.1) },
      [Effect.sendMessage])
  | none => Except.error "TypeError: cannot merge undefined page"

/-- `_editMessage()`: re-render the current page into the displayed
message (merging the template for embed pages). -/
def editMessage (p : Paginator) : Except String (Paginator × List Effect) :=
  if p.messageSet then
    match jsGetPage p.pages p.currentPageIndex with
    | some (Page.text _) => Except.ok (p, [Effect.editMessage])
    | some (Page.embed e) =>
      let m := mergeEmbedTemplate p e
      Except.ok ({ m.2 with pages := jsSetPage m.2.pages p.currentPageIndex (Page.embed m.1) },
        [Effect.editMessage])
    | none => Except.error "TypeError: cannot merge undefined page"
  else Except.error messageNullError

/-! ### `start` -/

/-- The reaction symbols attached by `start`, in attachment order:
the non-null entries of the emoji map. -/
def enabledEmojis (p : Paginator) : List String :=
  [p.emojis.front, p.emojis.back, p.emojis.next, p.emojis.rear,
   p.emojis.stop, p.emojis.jump, p.emojis.trash, p.emojis.info].filterMap id

/-- `start(channel)`: no-op while running; emit the validation error and
abort on an invalid configuration; otherwise send the first page, and —
unless there is only one page, which ends the session immediately —
attach the enabled reactions and open the reaction collector. -/
def start (p : Paginator) : Except String (Paginator × List Effect) :=
  if p.running then Except.ok (p, [])
  else
    match validationError p with
    | some e => Except.ok (p, [Effect.emitError e])
    | none =>
      let p1 := { p with running := true }
      match setMessage p1 with
      | Except.error e => Except.error e
      | Except.ok (p2, ef) =>
        if p2.pageCount = 1 then
          Except.ok (p2, ef ++ [Effect.emitEnd "Paginator had only 1 page."])
        else
          Except.ok ({ p2 with collectorStops := some 0 },
            ef ++ (enabledEmojis p2).map Effect.react ++ [Effect.openCollector])

/-! ### Reaction dispatch (`_onReactionAdded`) -/

/-- The permission-gated reaction removal at the top of
`_onReactionAdded`. -/
def preEffects (hasManageMessages : Bool) : List Effect :=
  if hasManageMessages then [Effect.removeReaction] else []

/-- Shared tail of the switch: the `break` paths fall through to
`await this._editMessage()`. -/
def afterSwitch (p : Paginator) (pre : List Effect) : Except String (Paginator × List Effect) :=
  match editMessage p with
  | Except.error e => Except.error e
  | Except.ok (p1, ef) => Except.ok (p1, pre ++ ef)

/-- The body of `_onReactionAdded` after the collector filter: match the
reaction key against the emoji map in switch order and perform the
action.  `reply` is the outcome of the jump prompt's `awaitMessages`
(`none` when no message arrived before its timeout). -/
def handleReaction (p : Paginator) (key : String) (hasManageMessages : Bool)
    (reply : Option String) : Except String (Paginator × List Effect) :=
  let pre := preEffects hasManageMessages
  if p.emojis.front = some key then
    if p.currentPageIndex = 0 then Except.ok (p, pre)
    else afterSwitch { p with currentPageIndex := 0 } pre
  else if p.emojis.rear = some key then
    if p.currentPageIndex = p.lastPageIndex then Except.ok (p, pre)
    else afterSwitch { p with currentPageIndex := p.lastPageIndex } pre
  else if p.emojis.back = some key then
    if p.circular = false then
      if p.currentPageIndex = 0 then Except.ok (p, pre)
      else afterSwitch { p with currentPageIndex := p.currentPageIndex - 1 } pre
    else
      if p.currentPageIndex = 0 then
        afterSwitch { p with currentPageIndex := p.lastPageIndex } pre
      else afterSwitch { p with currentPageIndex := p.currentPageIndex - 1 } pre
  else if p.emojis.next = some key then
    if p.circular = false then
      if p.currentPageIndex = p.lastPageIndex then Except.ok (p, pre)
      else afterSwitch { p with currentPageIndex := p.currentPageIndex + 1 } pre
    else
      if p.currentPageIndex = p.lastPageIndex then
        afterSwitch { p with currentPageIndex := 0 } pre
      else afterSwitch { p with currentPageIndex := p.currentPageIndex + 1 } pre
  else if p.emojis.stop = some key then
    match destroy p with
    | Except.error e => Except.error e
    | Except.ok (p1, ef) => Except.ok (p1, pre ++ ef)
  else if p.emojis.trash = some key then
    match destroy p with
    | Except.error e => Except.error e
    | Except.ok (p1, ef) =>
      if p1.messageSet then Except.ok (p1, pre ++ ef ++ [Effect.deleteMessage])
      else Except.error messageNullError
  else if p.emojis.info = some key then
    if p.messageSet then Except.ok (p, pre ++ [Effect.sendInfo, Effect.deleteInfo])
    else Except.error messageNullError
  else if p.emojis.jump = some key then
    if p.messageSet then
      let promptEff : List Effect := if p.jumpShowPrompt then [Effect.sendPrompt] else []
      let delPrompt : List Effect := if p.jumpShowPrompt then [Effect.deletePrompt] else []
      match reply with
      | none => Except.ok (p, pre ++ promptEff ++ delPrompt)
      | some content =>
        match jsParseInt content with
        | none => Except.ok (p, pre ++ promptEff ++ delPrompt)
        | some n =>
          if n ≤ 0 ∨ p.pageCount < n then Except.ok (p, pre ++ promptEff ++ delPrompt)
          else
            let delResp : List Effect :=
              if p.jumpDeleteResponse && hasManageMessages then [Effect.deleteResponse] else []
            afterSwitch { p with currentPageIndex := n - 1 }
              (pre ++ promptEff ++ delPrompt ++ delResp)
    else Except.error messageNullError
  else
    -- a key matching no case leaves the switch and reaches the edit call
    afterSwitch p pre

/-- The collector's filter: the emoji key must be one of the attached
symbols and the reacting user must be the configured one. -/
def reactionFilter (p : Paginator) (key uid : String) : Bool :=
  (enabledEmojis p).contains key && p.userID = some uid

/-- One inbound reaction event end to end: events rejected by the
collector filter never reach `_onReactionAdded`. -/
def collectEvent (p : Paginator) (key uid : String) (hasManageMessages : Bool)
    (reply : Option String) : Except String (Paginator × List Effect) :=
  if reactionFilter p key uid then handleReaction p key hasManageMessages reply
  else Except.ok (p, [])

/-- Decidable equality of operation results, so that concrete runs can
be checked by `decide`. -/
instance {ε α : Type} [DecidableEq ε] [DecidableEq α] : DecidableEq (Except ε α) := fun u v =>
  match u, v with
  | Except.ok a, Except.ok b =>
    if h : a = b then isTrue (by rw [h]) else isFalse (fun hc => by cases hc; exact h rfl)
  | Except.ok _, Except.error _ => isFalse (fun hc => by cases hc)
  | Except.error _, Except.ok _ => isFalse (fun hc => by cases hc)
  | Except.error e, Except.error f =>
    if h : e = f then isTrue (by rw [h]) else isFalse (fun hc => by cases hc; exact h rfl)

/-! ### Result projections -/

/-- The resulting state of a successful operation. -/
def okState : Except String (Paginator × List Effect) → Option Paginator
  | Except.ok x => some x.1
  | Except.error _ => none

/-- The effect trace of a successful operation. -/
def okEffects : Except String (Paginator × List Effect) → Option (List Effect)
  | Except.ok x => some x.2
  | Except.error _ => none

/-- The current page index after dispatching one reaction. -/
def dispatchIndex (p : Paginator) (key : String) (hasManageMessages : Bool)
    (reply : Option String) : Option Int :=
  (okState (handleReaction p key hasManageMessages reply)).map Paginator.currentPageIndex

/-! ### Helper lemmas -/

theorem jsGetPage_eq_some (l : List Page) (i : Int) (h0 : 0 ≤ i) (hlt : i < (l.length : Int)) :
    ∃ pg, jsGetPage l i = some pg := by
  have hnat : i.toNat < l.length := by omega
  refine ⟨l.get ⟨i.toNat, hnat⟩, ?_⟩
  unfold jsGetPage
  rw [if_pos h0, List.get?_eq_get hnat]

theorem editMessage_ok (p : Paginator) (hmsg : p.messageSet = true)
    (h0 : 0 ≤ p.currentPageIndex) (hlt : p.currentPageIndex < (p.pages.length : Int)) :
    ∃ q, editMessage p = Except.ok (q, [Effect.editMessage]) ∧
      q.currentPageIndex = p.currentPageIndex := by
  obtain ⟨pg, hpg⟩ := jsGetPage_eq_some p.pages p.currentPageIndex h0 hlt
  unfold editMessage
  rw [hmsg, if_pos rfl, hpg]
  cases pg with
  | text s => exact ⟨p, rfl, rfl⟩
  | embed e => exact ⟨_, rfl, rfl⟩

theorem mergeEmbedTemplate_pageCount (p : Paginator) (e : MessageEmbed) :
    (mergeEmbedTemplate p e).2.pageCount = p.pageCount := rfl

theorem afterSwitch_ok (q : Paginator) (pre : List Effect) (hmsg : q.messageSet = true)
    (h0 : 0 ≤ q.currentPageIndex) (hlt : q.currentPageIndex < (q.pages.length : Int)) :
    ∃ q1, afterSwitch q pre = Except.ok (q1, pre ++ [Effect.editMessage]) ∧
      q1.currentPageIndex = q.currentPageIndex := by
  obtain ⟨q1, hq1, hidx⟩ := editMessage_ok q hmsg h0 hlt
  unfold afterSwitch
  rw [hq1]
  exact ⟨q1, rfl, hidx⟩

/-- A running three-page session over plain-text pages with the default
emoji set, positioned on the middle page. -/
def samplePaginator : Paginator := { defaultPaginator with
  pages := [Page.text "A", Page.text "B", Page.text "C"],
  pageCount := 3,
  lastPageIndex := 2,
  currentPageIndex := 1,
  userID := some "u",
  messageSet := true,
  running := true,
  collectorStops := some 0 }

/-! ### Claims -/

/-- C1: with the current index in range, the `back` reaction at index 0
and the `next` reaction at the last index leave the index unchanged for
non-circular sessions and wrap to the last index / to 0 for circular
sessions; in every other position they decrement / increment the index
by one. -/
theorem back_next_transitions (p : Paginator) (kb kn : String) (hm : Bool) (r : Option String)
    (hmsg : p.messageSet = true)
    (hlen : p.pageCount = (p.pages.length : Int))
    (hlast : p.lastPageIndex = p.pageCount - 1)
    (hlo : 0 ≤ p.currentPageIndex) (hhi : p.currentPageIndex ≤ p.lastPageIndex)
    (hfb : p.emojis.front ≠ some kb) (hrb : p.emojis.rear ≠ some kb)
    (hbb : p.emojis.back = some kb)
    (hfn : p.emojis.front ≠ some kn) (hrn : p.emojis.rear ≠ some kn)
    (hbn : p.emojis.back ≠ some kn) (hnn : p.emojis.next = some kn) :
    (p.circular = false →
      ((p.currentPageIndex = 0 → dispatchIndex p kb hm r = some p.currentPageIndex) ∧
       (p.currentPageIndex ≠ 0 → dispatchIndex p kb hm r = some (p.currentPageIndex - 1)) ∧
       (p.currentPageIndex = p.lastPageIndex → dispatchIndex p kn hm r = some p.currentPageIndex) ∧
       (p.currentPageIndex ≠ p.lastPageIndex → dispatchIndex p kn hm r = some (p.currentPageIndex + 1)))) ∧
    (p.circular = true →
      ((p.currentPageIndex = 0 → dispatchIndex p kb hm r = some p.lastPageIndex) ∧
       (p.currentPageIndex ≠ 0 → dispatchIndex p kb hm r = some (p.currentPageIndex - 1)) ∧
       (p.currentPageIndex = p.lastPageIndex → dispatchIndex p kn hm r = some 0) ∧
       (p.currentPageIndex ≠ p.lastPageIndex → dispatchIndex p kn hm r = some (p.currentPageIndex + 1)))) := by
  have hback : ∀ v : Int, 0 ≤ v → v < (p.pages.length : Int) →
      (okState (afterSwitch { p with currentPageIndex := v } (preEffects hm))).map
        Paginator.currentPageIndex = some v := by
    intro v hv0 hvl
    obtain ⟨q1, hq1, hidx⟩ :=
      afterSwitch_ok { p with currentPageIndex := v } (preEffects hm) hmsg hv0 hvl
    rw [hq1]
    simp [okState, hidx]
  constructor
  · intro hcirc
    refine ⟨?_, ?_, ?_, ?_⟩
    · intro h
      unfold dispatchIndex handleReaction
      rw [if_neg hfb, if_neg hrb, if_pos hbb, if_pos hcirc, if_pos h]
      simp [okState]
    · intro h
      unfold dispatchIndex handleReaction
      rw [if_neg hfb, if_neg hrb, if_pos hbb, if_pos hcirc, if_neg h]
      exact hback _ (by omega) (by omega)
    · intro h
      unfold dispatchIndex handleReaction
      rw [if_neg hfn, if_neg hrn, if_neg hbn, if_pos hnn, if_pos hcirc, if_pos h]
      simp [okState]
    · intro h
      unfold dispatchIndex handleReaction
      rw [if_neg hfn, if_neg hrn, if_neg hbn, if_pos hnn, if_pos hcirc, if_neg h]
      exact hback _ (by omega) (by omega)
  · intro hcirc
    have hnc : ¬(p.circular = false) := by rw [hcirc]; exact fun hc => by cases hc
    refine ⟨?_, ?_, ?_, ?_⟩
    · intro h
      unfold dispatchIndex handleReaction
      rw [if_neg hfb, if_neg hrb, if_pos hbb, if_neg hnc, if_pos h]
      exact hback _ (by omega) (by omega)
    · intro h
      unfold dispatchIndex handleReaction
      rw [if_neg hfb, if_neg hrb, if_pos hbb, if_neg hnc, if_neg h]
      exact hback _ (by omega) (by omega)
    · intro h
      unfold dispatchIndex handleReaction
      rw [if_neg hfn, if_neg hrn, if_neg hbn, if_pos hnn, if_neg hnc, if_pos h]
      exact hback _ (by omega) (by omega)
    · intro h
      unfold dispatchIndex handleReaction
      rw [if_neg hfn, if_neg hrn, if_neg hbn, if_pos hnn, if_neg hnc, if_neg h]
      exact hback _ (by omega) (by omega)

/-- Witness for C1 at a concrete running session: `next` on the middle
page of three advances to the last page. -/
theorem back_next_transitions_witness :
    samplePaginator.currentPageIndex = 1 ∧ samplePaginator.circular = true ∧
    dispatchIndex samplePaginator "▶" false none = some 2 := by
  refine ⟨by decide, by decide, ?_⟩
  have h := back_next_transitions samplePaginator "◀" "▶" false none
    (by decide) (by decide) (by decide) (by decide) (by decide) (by decide) (by decide)
    (by decide) (by decide) (by decide) (by decide) (by decide)
  exact ((h.2 (by decide)).2.2.2 (by decide)).trans (by decide)

/-- C2: on a jump event, the current index becomes `n − 1` exactly when
the collected reply parses (by `parseInt`) to an integer `n` with
`1 ≤ n ≤ pageCount`; a missing reply, an unparsable reply, and an
out-of-range number all leave the index unchanged. -/
theorem jump_reply_transitions (p : Paginator) (kj : String) (hm : Bool) (r : Option String)
    (hmsg : p.messageSet = true)
    (hlen : p.pageCount = (p.pages.length : Int))
    (hlast : p.lastPageIndex = p.pageCount - 1)
    (_hlo : 0 ≤ p.currentPageIndex) (_hhi : p.currentPageIndex ≤ p.lastPageIndex)
    (hf : p.emojis.front ≠ some kj) (hr : p.emojis.rear ≠ some kj)
    (hb : p.emojis.back ≠ some kj) (hn : p.emojis.next ≠ some kj)
    (hs : p.emojis.stop ≠ some kj) (ht : p.emojis.trash ≠ some kj)
    (hi : p.emojis.info ≠ some kj) (hj : p.emojis.jump = some kj) :
    (∀ s n, r = some s → jsParseInt s = some n → 1 ≤ n → n ≤ p.pageCount →
      dispatchIndex p kj hm r = some (n - 1)) ∧
    (r = none → dispatchIndex p kj hm r = some p.currentPageIndex) ∧
    (∀ s, r = some s → jsParseInt s = none → dispatchIndex p kj hm r = some p.currentPageIndex) ∧
    (∀ s n, r = some s → jsParseInt s = some n → (n ≤ 0 ∨ p.pageCount < n) →
      dispatchIndex p kj hm r = some p.currentPageIndex) := by
  refine ⟨?_, ?_, ?_, ?_⟩
  · intro s n hrs hps h1 h2
    subst hrs
    unfold dispatchIndex handleReaction
    rw [if_neg hf, if_neg hr, if_neg hb, if_neg hn, if_neg hs, if_neg ht, if_neg hi,
      if_pos hj, if_pos hmsg]
    dsimp only
    rw [hps]
    dsimp only
    rw [if_neg (by omega : ¬(n ≤ 0 ∨ p.pageCount < n))]
    obtain ⟨q1, hq1, hidx⟩ := afterSwitch_ok { p with currentPageIndex := n - 1 } _
      hmsg (by show (0:Int) ≤ n - 1; omega) (by show n - 1 < (p.pages.length : Int); omega)
    rw [hq1]
    simp [okState, hidx]
  · intro hrs
    subst hrs
    unfold dispatchIndex handleReaction
    rw [if_neg hf, if_neg hr, if_neg hb, if_neg hn, if_neg hs, if_neg ht, if_neg hi,
      if_pos hj, if_pos hmsg]
    simp [okState]
  · intro s hrs hps
    subst hrs
    unfold dispatchIndex handleReaction
    rw [if_neg hf, if_neg hr, if_neg hb, if_neg hn, if_neg hs, if_neg ht, if_neg hi,
      if_pos hj, if_pos hmsg]
    dsimp only
    rw [hps]
    simp [okState]
  · intro s n hrs hps hout
    subst hrs
    unfold dispatchIndex handleReaction
    rw [if_neg hf, if_neg hr, if_neg hb, if_neg hn, if_neg hs, if_neg ht, if_neg hi,
      if_pos hj, if_pos hmsg]
    dsimp only
    rw [hps]
    dsimp only
    rw [if_pos hout]
    simp [okState]

/-- Witness for C2: on the three-page session, the reply `"3"` jumps to
index 2, and the reply `"9"` leaves the index at 1. -/
theorem jump_reply_transitions_witness :
    jsParseInt "3" = some 3 ∧
    dispatchIndex samplePaginator "🔢" false (some "3") = some 2 ∧
    dispatchIndex samplePaginator "🔢" false (some "9") = some 1 := by
  refine ⟨by decide, ?_, ?_⟩
  · have h := jump_reply_transitions samplePaginator "🔢" false (some "3")
      (by decide) (by decide) (by decide) (by decide) (by decide) (by decide) (by decide)
      (by decide) (by decide) (by decide) (by decide) (by decide) (by decide)
    exact (h.1 "3" 3 rfl (by decide) (by decide) (by decide)).trans (by decide)
  · have h := jump_reply_transitions samplePaginator "🔢" false (some "9")
      (by decide) (by decide) (by decide) (by decide) (by decide) (by decide) (by decide)
      (by decide) (by decide) (by decide) (by decide) (by decide) (by decide)
    exact (h.2.2.2 "9" 9 rfl (by decide) (by decide)).trans (by decide)

/-- The switch resolves the key to the jump case exactly when the key
misses every earlier case and matches the jump emoji. -/
def resolvesToJump (p : Paginator) (key : String) : Bool :=
  (!decide (p.emojis.front = some key)) && (!decide (p.emojis.rear = some key)) &&
  (!decide (p.emojis.back = some key)) && (!decide (p.emojis.next = some key)) &&
  (!decide (p.emojis.stop = some key)) && (!decide (p.emojis.trash = some key)) &&
  (!decide (p.emojis.info = some key)) && decide (p.emojis.jump = some key)

theorem editMessage_not_mem_preEffects (hm : Bool) :
    Effect.editMessage ∉ preEffects hm := by
  cases hm <;> simp [preEffects]

theorem destroy_ok (p : Paginator) (k : Nat) (hk : p.collectorStops = some k) :
    destroy p = Except.ok ({ p with destroyed := true, collectorStops := some (k + 1) },
      [Effect.stopCollector, Effect.emitEnd "Paginator was destroyed."]) := by
  unfold destroy
  rw [hk]

/-- C3 counterexample: on the running three-page session at index 1, the
jump reply `"2"` targets the page already displayed — the index does not
change, yet an edit of the displayed message is issued.  This refutes
"a render is issued only when the index actually changed". -/
theorem render_on_unchanged_index_counterexample :
    okEffects (collectEvent samplePaginator "🔢" "u" false (some "2"))
      = some [Effect.sendPrompt, Effect.deletePrompt, Effect.editMessage] ∧
    (okState (collectEvent samplePaginator "🔢" "u" false (some "2"))).map
      Paginator.currentPageIndex = some samplePaginator.currentPageIndex :=
  ⟨by decide, by decide⟩

/-- C3 (amended): events rejected by the collector filter have no effect
at all, and for accepted events an edit of the displayed message is
issued exactly when the index changed or the event resolved to the jump
case with a reply parsing into range — a valid jump re-renders even when
it lands on the current page. -/
theorem render_iff_index_change_or_valid_jump (p : Paginator) (key uid : String) (hm : Bool)
    (r : Option String)
    (hmsg : p.messageSet = true)
    (hlen : p.pageCount = (p.pages.length : Int))
    (hlast : p.lastPageIndex = p.pageCount - 1)
    (hlo : 0 ≤ p.currentPageIndex) (hhi : p.currentPageIndex ≤ p.lastPageIndex)
    (hmulti : 1 ≤ p.lastPageIndex)
    (hcol : p.collectorStops.isSome = true) :
    (reactionFilter p key uid = false → collectEvent p key uid hm r = Except.ok (p, [])) ∧
    (reactionFilter p key uid = true →
      ∃ q ef, collectEvent p key uid hm r = Except.ok (q, ef) ∧
        (Effect.editMessage ∈ ef ↔
          (q.currentPageIndex ≠ p.currentPageIndex ∨
           (resolvesToJump p key = true ∧
            ∃ s n, r = some s ∧ jsParseInt s = some n ∧ 1 ≤ n ∧ n ≤ p.pageCount)))) := by
  constructor
  · intro hflt
    unfold collectEvent
    rw [hflt]
    simp
  intro hflt
  unfold collectEvent
  rw [hflt]
  simp only [if_true]
  by_cases hfr : p.emojis.front = some key
  · unfold handleReaction
    rw [if_pos hfr]
    by_cases hc0 : p.currentPageIndex = 0
    · rw [if_pos hc0]
      refine ⟨p, preEffects hm, rfl, iff_of_false (editMessage_not_mem_preEffects hm) ?_⟩
      rintro (h | ⟨hrj, _⟩)
      · exact h rfl
      · simp [resolvesToJump, hfr] at hrj
    · rw [if_neg hc0]
      obtain ⟨q1, hq1, hidx⟩ := afterSwitch_ok { p with currentPageIndex := 0 } (preEffects hm)
        hmsg (by show (0:Int) ≤ 0; omega) (by show (0:Int) < (p.pages.length : Int); omega)
      refine ⟨q1, _, hq1, iff_of_true (by simp) (Or.inl ?_)⟩
      rw [hidx]
      show (0:Int) ≠ p.currentPageIndex
      omega
  by_cases hre : p.emojis.rear = some key
  · unfold handleReaction
    rw [if_neg hfr, if_pos hre]
    by_cases hcl : p.currentPageIndex = p.lastPageIndex
    · rw [if_pos hcl]
      refine ⟨p, preEffects hm, rfl, iff_of_false (editMessage_not_mem_preEffects hm) ?_⟩
      rintro (h | ⟨hrj, _⟩)
      · exact h rfl
      · simp [resolvesToJump, hre] at hrj
    · rw [if_neg hcl]
      obtain ⟨q1, hq1, hidx⟩ := afterSwitch_ok { p with currentPageIndex := p.lastPageIndex }
        (preEffects hm) hmsg (by show (0:Int) ≤ p.lastPageIndex; omega)
        (by show p.lastPageIndex < (p.pages.length : Int); omega)
      refine ⟨q1, _, hq1, iff_of_true (by simp) (Or.inl ?_)⟩
      rw [hidx]
      show p.lastPageIndex ≠ p.currentPageIndex
      omega
  by_cases hba : p.emojis.back = some key
  · unfold handleReaction
    rw [if_neg hfr, if_neg hre, if_pos hba]
    by_cases hcir : p.circular = false
    · rw [if_pos hcir]
      by_cases hc0 : p.currentPageIndex = 0
      · rw [if_pos hc0]
        refine ⟨p, preEffects hm, rfl, iff_of_false (editMessage_not_mem_preEffects hm) ?_⟩
        rintro (h | ⟨hrj, _⟩)
        · exact h rfl
        · simp [resolvesToJump, hba] at hrj
      · rw [if_neg hc0]
        obtain ⟨q1, hq1, hidx⟩ := afterSwitch_ok
          { p with currentPageIndex := p.currentPageIndex - 1 } (preEffects hm) hmsg
          (by show (0:Int) ≤ p.currentPageIndex - 1; omega)
          (by show p.currentPageIndex - 1 < (p.pages.length : Int); omega)
        refine ⟨q1, _, hq1, iff_of_true (by simp) (Or.inl ?_)⟩
        rw [hidx]
        show p.currentPageIndex - 1 ≠ p.currentPageIndex
        omega
    · rw [if_neg hcir]
      by_cases hc0 : p.currentPageIndex = 0
      · rw [if_pos hc0]
        obtain ⟨q1, hq1, hidx⟩ := afterSwitch_ok { p with currentPageIndex := p.lastPageIndex }
          (preEffects hm) hmsg (by show (0:Int) ≤ p.lastPageIndex; omega)
          (by show p.lastPageIndex < (p.pages.length : Int); omega)
        refine ⟨q1, _, hq1, iff_of_true (by simp) (Or.inl ?_)⟩
        rw [hidx]
        show p.lastPageIndex ≠ p.currentPageIndex
        omega
      · rw [if_neg hc0]
        obtain ⟨q1, hq1, hidx⟩ := afterSwitch_ok
          { p with currentPageIndex := p.currentPageIndex - 1 } (preEffects hm) hmsg
          (by show (0:Int) ≤ p.currentPageIndex - 1; omega)
          (by show p.currentPageIndex - 1 < (p.pages.length : Int); omega)
        refine ⟨q1, _, hq1, iff_of_true (by simp) (Or.inl ?_)⟩
        rw [hidx]
        show p.currentPageIndex - 1 ≠ p.currentPageIndex
        omega
  by_cases hnx : p.emojis.next = some key
  · unfold handleReaction
    rw [if_neg hfr, if_neg hre, if_neg hba, if_pos hnx]
    by_cases hcir : p.circular = false
    · rw [if_pos hcir]
      by_cases hcl : p.currentPageIndex = p.lastPageIndex
      · rw [if_pos hcl]
        refine ⟨p, preEffects hm, rfl, iff_of_false (editMessage_not_mem_preEffects hm) ?_⟩
        rintro (h | ⟨hrj, _⟩)
        · exact h rfl
        · simp [resolvesToJump, hnx] at hrj
      · rw [if_neg hcl]
        obtain ⟨q1, hq1, hidx⟩ := afterSwitch_ok
          { p with currentPageIndex := p.currentPageIndex + 1 } (preEffects hm) hmsg
          (by show (0:Int) ≤ p.currentPageIndex + 1; omega)
          (by show p.currentPageIndex + 1 < (p.pages.length : Int); omega)
        refine ⟨q1, _, hq1, iff_of_true (by simp) (Or.inl ?_)⟩
        rw [hidx]
        show p.currentPageIndex + 1 ≠ p.currentPageIndex
        omega
    · rw [if_neg hcir]
      by_cases hcl : p.currentPageIndex = p.lastPageIndex
      · rw [if_pos hcl]
        obtain ⟨q1, hq1, hidx⟩ := afterSwitch_ok { p with currentPageIndex := 0 }
          (preEffects hm) hmsg (by show (0:Int) ≤ 0; omega)
          (by show (0:Int) < (p.pages.length : Int); omega)
        refine ⟨q1, _, hq1, iff_of_true (by simp) (Or.inl ?_)⟩
        rw [hidx]
        show (0:Int) ≠ p.currentPageIndex
        omega
      · rw [if_neg hcl]
        obtain ⟨q1, hq1, hidx⟩ := afterSwitch_ok
          { p with currentPageIndex := p.currentPageIndex + 1 } (preEffects hm) hmsg
          (by show (0:Int) ≤ p.currentPageIndex + 1; omega)
          (by show p.currentPageIndex + 1 < (p.pages.length : Int); omega)
        refine ⟨q1, _, hq1, iff_of_true (by simp) (Or.inl ?_)⟩
        rw [hidx]
        show p.currentPageIndex + 1 ≠ p.currentPageIndex
        omega
  by_cases hst : p.emojis.stop = some key
  · unfold handleReaction
    rw [if_neg hfr, if_neg hre, if_neg hba, if_neg hnx, if_pos hst]
    obtain ⟨k, hk⟩ := Option.isSome_iff_exists.mp hcol
    rw [destroy_ok p k hk]
    refine ⟨_, _, rfl, iff_of_false ?_ ?_⟩
    · intro hmem
      simp [editMessage_not_mem_preEffects] at hmem
    · rintro (h | ⟨hrj, _⟩)
      · exact h rfl
      · simp [resolvesToJump, hst] at hrj
  by_cases htr : p.emojis.trash = some key
  · unfold handleReaction
    rw [if_neg hfr, if_neg hre, if_neg hba, if_neg hnx, if_neg hst, if_pos htr]
    obtain ⟨k, hk⟩ := Option.isSome_iff_exists.mp hcol
    rw [destroy_ok p k hk]
    dsimp only
    rw [if_pos (show Paginator.messageSet _ = true from hmsg)]
    refine ⟨_, _, rfl, iff_of_false ?_ ?_⟩
    · intro hmem
      simp [editMessage_not_mem_preEffects] at hmem
    · rintro (h | ⟨hrj, _⟩)
      · exact h rfl
      · simp [resolvesToJump, htr] at hrj
  by_cases hin : p.emojis.info = some key
  · unfold handleReaction
    rw [if_neg hfr, if_neg hre, if_neg hba, if_neg hnx, if_neg hst, if_neg htr, if_pos hin,
      if_pos hmsg]
    refine ⟨p, _, rfl, iff_of_false ?_ ?_⟩
    · intro hmem
      simp [editMessage_not_mem_preEffects] at hmem
    · rintro (h | ⟨hrj, _⟩)
      · exact h rfl
      · simp [resolvesToJump, hin] at hrj
  by_cases hjm : p.emojis.jump = some key
  · unfold handleReaction
    rw [if_neg hfr, if_neg hre, if_neg hba, if_neg hnx, if_neg hst, if_neg htr, if_neg hin,
      if_pos hjm, if_pos hmsg]
    cases r with
    | none =>
      dsimp only
      refine ⟨p, _, rfl, iff_of_false ?_ ?_⟩
      · intro hmem
        simp [editMessage_not_mem_preEffects] at hmem
      · rintro (h | ⟨_, s', n', hs', _⟩)
        · exact h rfl
        · cases hs'
    | some s =>
      dsimp only
      cases hps : jsParseInt s with
      | none =>
        dsimp only
        refine ⟨p, _, rfl, iff_of_false ?_ ?_⟩
        · intro hmem
          simp [editMessage_not_mem_preEffects] at hmem
        · rintro (h | ⟨_, s', n', hs', hp', _⟩)
          · exact h rfl
          · cases hs'
            rw [hps] at hp'
            cases hp'
      | some n =>
        dsimp only
        by_cases hout : n ≤ 0 ∨ p.pageCount < n
        · rw [if_pos hout]
          refine ⟨p, _, rfl, iff_of_false ?_ ?_⟩
          · intro hmem
            simp [editMessage_not_mem_preEffects] at hmem
          · rintro (h | ⟨_, s', n', hs', hp', h1', h2'⟩)
            · exact h rfl
            · cases hs'
              rw [hps] at hp'
              cases hp'
              omega
        · rw [if_neg hout]
          obtain ⟨q1, hq1, hidx⟩ := afterSwitch_ok { p with currentPageIndex := n - 1 } _
            hmsg (by show (0:Int) ≤ n - 1; omega)
            (by show n - 1 < (p.pages.length : Int); omega)
          refine ⟨q1, _, hq1, iff_of_true (by simp) (Or.inr ⟨?_, s, n, rfl, hps, ?_, ?_⟩)⟩
          · simp [resolvesToJump, hfr, hre, hba, hnx, hst, htr, hin, hjm]
          · omega
          · omega
  · -- no case matched, yet the filter accepted the key: impossible
    exfalso
    have hmem : key ∈ enabledEmojis p := by
      unfold reactionFilter at hflt
      rw [Bool.and_eq_true] at hflt
      simpa [List.contains_iff_exists_mem_beq] using hflt.1
    have hdis : some key = p.emojis.front ∨ some key = p.emojis.back ∨
        some key = p.emojis.next ∨ some key = p.emojis.rear ∨ some key = p.emojis.stop ∨
        some key = p.emojis.jump ∨ some key = p.emojis.trash ∨ some key = p.emojis.info := by
      simpa [enabledEmojis, List.mem_filterMap, or_assoc] using hmem
    rcases hdis with h | h | h | h | h | h | h | h
    · exact hfr h.symm
    · exact hba h.symm
    · exact hnx h.symm
    · exact hre h.symm
    · exact hst h.symm
    · exact hjm h.symm
    · exact htr h.symm
    · exact hin h.symm

/-- Witness for the amended C3 on the running three-page session: the
`next` event passes the filter and the characterization applies to it. -/
theorem render_iff_index_change_witness :
    reactionFilter samplePaginator "▶" "u" = true ∧
    (∃ q ef, collectEvent samplePaginator "▶" "u" false none = Except.ok (q, ef) ∧
      (Effect.editMessage ∈ ef ↔
        (q.currentPageIndex ≠ samplePaginator.currentPageIndex ∨
         (resolvesToJump samplePaginator "▶" = true ∧
          ∃ s n, (none : Option String) = some s ∧ jsParseInt s = some n ∧ 1 ≤ n ∧
            n ≤ samplePaginator.pageCount)))) :=
  ⟨by decide,
    (render_iff_index_change_or_valid_jump samplePaginator "▶" "u" false none
      (by decide) (by decide) (by decide) (by decide) (by decide) (by decide) (by decide)).2
      (by decide)⟩

/-! ### Merge claims (C4, C5, C6) -/

/-- A page carrying its own static footer text `"A"`. -/
def pageWithFooterA : MessageEmbed := { footer := some { text := some "A" } }

/-- A template carrying footer text `"B"`. -/
def templateEmbedB : MessageEmbed := { footer := some { text := some "B" } }

/-- A session holding `templateEmbedB` as its template, with the footer
format not yet captured. -/
def sessionWithTemplateB : Paginator := { defaultPaginator with
  embed := some templateEmbedB,
  pages := [Page.embed pageWithFooterA],
  pageCount := 1,
  lastPageIndex := 0 }

/-- C4 counterexample: on the first merge the page's own footer text is
`"A"`, yet the captured format is the template's `"B"` — the template
overwrite runs before the capture, so the format is not derived from the
page's footer text. -/
theorem footer_format_capture_counterexample :
    sessionWithTemplateB.embedFooterFormat = none ∧
    footerText pageWithFooterA = some "A" ∧
    (mergeEmbedTemplate sessionWithTemplateB pageWithFooterA).2.embedFooterFormat = some "B" ∧
    ¬(mergeEmbedTemplate sessionWithTemplateB pageWithFooterA).2.embedFooterFormat = some "A" := by
  decide

/-- The capture rule, spelled out from the amended claim: the format
comes from the merged document's footer after the template overwrite —
the template's footer when the template supplies one, else the page's —
taking its text when that text is a non-empty string and the hard
default otherwise. -/
def capturedFooterFormatSpec (tmpl : Option MessageEmbed) (page : MessageEmbed) : String :=
  let f : Option EmbedFooter :=
    match tmpl with
    | some t => if t.footer.isSome then t.footer else page.footer
    | none => page.footer
  match f with
  | some ff =>
    match ff.text with
    | some s => if s = "" then footerFormatDefault else s
    | none => footerFormatDefault
  | none => footerFormatDefault

/-- C4 (amended): the footer format is captured at most once — a merge
with the format already frozen reuses it unchanged, and the first merge
captures `capturedFooterFormatSpec` (the post-overwrite footer text when
non-empty, else the hard default). -/
theorem footer_format_frozen_capture (p : Paginator) (e : MessageEmbed) :
    (∀ f, p.embedFooterFormat = some f →
      (mergeEmbedTemplate p e).2.embedFooterFormat = some f) ∧
    (p.embedFooterFormat = none →
      (mergeEmbedTemplate p e).2.embedFooterFormat =
        some (capturedFooterFormatSpec p.embed e)) := by
  constructor
  · intro f hf
    simp [mergeEmbedTemplate, hf]
  · intro hf
    cases hp : p.embed with
    | none =>
      simp [mergeEmbedTemplate, capturedFooterFormatSpec, hf, hp]
    | some t =>
      simp [mergeEmbedTemplate, capturedFooterFormatSpec, overwriteFromTemplate, hf, hp]

/-- Witness for the amended C4: with the format already frozen to
`"F"`, merging a page with different static footer text keeps `"F"`. -/
theorem footer_format_frozen_capture_witness :
    ({ sessionWithTemplateB with embedFooterFormat := some "F" } : Paginator).embedFooterFormat
      = some "F" ∧
    (mergeEmbedTemplate { sessionWithTemplateB with embedFooterFormat := some "F" }
      pageWithFooterA).2.embedFooterFormat = some "F" :=
  ⟨by decide,
    (footer_format_frozen_capture { sessionWithTemplateB with embedFooterFormat := some "F" }
      pageWithFooterA).1 "F" (by decide)⟩

/-- C5: merging a page and then merging the merged result again, in the
state left by the first merge, yields the same footer text — the format
is frozen by the first merge and the rendered text only depends on the
frozen format and the unchanged index and count. -/
theorem merge_footer_text_idempotent (p : Paginator) (e : MessageEmbed) :
    footerText (mergeEmbedTemplate (mergeEmbedTemplate p e).2 (mergeEmbedTemplate p e).1).1
      = footerText (mergeEmbedTemplate p e).1 := by
  cases hp : p.embed with
  | none => simp [mergeEmbedTemplate, footerText, hp]
  | some t =>
    cases ht : t.footer with
    | none => simp [mergeEmbedTemplate, footerText, overwriteFromTemplate, hp, ht]
    | some tf => simp [mergeEmbedTemplate, footerText, overwriteFromTemplate, hp, ht]

/-- A page with no footer of its own. -/
def samplePageD : MessageEmbed := { description := some "hi" }

/-- A session storing only `samplePageD`, ready to render. -/
def pageSessionD : Paginator := { defaultPaginator with
  pages := [Page.embed samplePageD],
  pageCount := 1,
  lastPageIndex := 0,
  messageSet := true }

/-- C6 counterexample: re-rendering the current page changes the stored
page in place — after the edit the stored page list differs from the one
before (the page gained the synthesized, live-substituted footer). -/
theorem merge_mutates_stored_page_counterexample :
    (okState (editMessage pageSessionD)).map Paginator.pages ≠ some pageSessionD.pages ∧
    ((okState (editMessage pageSessionD)).map Paginator.pages).isSome = true :=
  ⟨by decide, by decide⟩

/-- Drop the footer text of a template, keeping every other field. -/
def eraseFooterText (t : MessageEmbed) : MessageEmbed :=
  { t with footer := t.footer.map fun f => { f with text := none } }

/-- C6 (amended): a merge rewrites the rendered page in place, but the
template survives except for its footer text: every template field other
than the footer text is unchanged, a template without a footer is fully
unchanged, the merged page always leaves with footer text rendered from
the frozen format, and when the template supplies the footer its text is
rewritten to exactly the merged page's rendered footer text (the two
alias one object in the source). -/
theorem merge_template_frame (p : Paginator) (e : MessageEmbed) :
    ((mergeEmbedTemplate p e).2.embed.map eraseFooterText = p.embed.map eraseFooterText) ∧
    (∀ t, p.embed = some t → t.footer = none → (mergeEmbedTemplate p e).2.embed = p.embed) ∧
    (((mergeEmbedTemplate p e).2.embedFooterFormat).isSome = true) ∧
    (∀ f, (mergeEmbedTemplate p e).2.embedFooterFormat = some f →
      footerText (mergeEmbedTemplate p e).1 =
        some (renderPageNumber p.currentPageIndex p.pageCount f)) ∧
    (∀ t tf, p.embed = some t → t.footer = some tf →
      (mergeEmbedTemplate p e).2.embed.map footerText =
        some (footerText (mergeEmbedTemplate p e).1)) := by
  refine ⟨?_, ?_, ?_, ?_, ?_⟩
  · cases hp : p.embed with
    | none => simp [mergeEmbedTemplate, hp]
    | some t =>
      cases ht : t.footer with
      | none => simp [mergeEmbedTemplate, hp, ht]
      | some tf => simp [mergeEmbedTemplate, eraseFooterText, hp, ht]
  · intro t hp ht
    simp [mergeEmbedTemplate, hp, ht]
  · cases hp : p.embed <;> simp [mergeEmbedTemplate, hp]
  · intro f hf
    cases hp : p.embed with
    | none =>
      simp only [mergeEmbedTemplate, hp] at hf
      rw [Option.some.injEq] at hf
      simp [mergeEmbedTemplate, footerText, hp, hf]
    | some t =>
      simp only [mergeEmbedTemplate, hp] at hf
      rw [Option.some.injEq] at hf
      simp [mergeEmbedTemplate, footerText, hp, hf]
  · intro t tf hp ht
    simp [mergeEmbedTemplate, footerText, overwriteFromTemplate, hp, ht]

/-- Witness for the amended C6 on the concrete template session: the
template's footer text after the merge equals the rendered footer text
of the merged page. -/
theorem merge_template_frame_witness :
    sessionWithTemplateB.embed = some templateEmbedB ∧
    templateEmbedB.footer = some { text := some "B", icon_url := none } ∧
    (mergeEmbedTemplate sessionWithTemplateB pageWithFooterA).2.embed.map footerText =
      some (footerText (mergeEmbedTemplate sessionWithTemplateB pageWithFooterA).1) :=
  ⟨by decide, by decide,
    (merge_template_frame sessionWithTemplateB pageWithFooterA).2.2.2.2 templateEmbedB
      { text := some "B", icon_url := none } (by decide) (by decide)⟩

/-! ### Lifecycle claims (C7, C8, C9) -/

/-- C7: starting a valid single-page paginator sends the page, emits the
only-one-page end notification, attaches no reaction, and never opens
the collector. -/
theorem single_page_short_circuit (p : Paginator)
    (hrun : p.running = false) (hval : validationError p = none)
    (hcount : p.pageCount = 1) (hlen : p.pages.length = 1) :
    ∃ q, start p = Except.ok (q,
        [Effect.sendMessage, Effect.emitEnd "Paginator had only 1 page."]) ∧
      q.collectorStops = p.collectorStops ∧ q.running = true := by
  obtain ⟨pg, hpg⟩ : ∃ pg, p.pages = [pg] := List.length_eq_one.mp hlen
  unfold start
  rw [if_neg (show ¬(p.running = true) by simp [hrun]), hval]
  dsimp only
  unfold setMessage
  simp only [hpg]
  cases pg with
  | text s =>
    simp only [List.head?_cons]
    rw [if_pos (show Paginator.pageCount _ = 1 from hcount)]
    exact ⟨_, rfl, rfl, rfl⟩
  | embed e =>
    simp only [List.head?_cons, mergeEmbedTemplate_pageCount]
    rw [if_pos (show Paginator.pageCount _ = 1 from hcount)]
    exact ⟨_, rfl, rfl, rfl⟩

/-- A valid paginator holding exactly one plain-text page. -/
def singlePageSession : Paginator := { defaultPaginator with
  pages := [Page.text "A"],
  pageCount := 1,
  lastPageIndex := 0,
  userID := some "u" }

/-- Witness for C7 on the concrete one-page session. -/
theorem single_page_short_circuit_witness :
    validationError singlePageSession = none ∧
    (∃ q, start singlePageSession = Except.ok (q,
        [Effect.sendMessage, Effect.emitEnd "Paginator had only 1 page."]) ∧
      q.collectorStops = singlePageSession.collectorStops ∧ q.running = true) :=
  ⟨by decide,
    single_page_short_circuit singlePageSession (by decide) (by decide) (by decide) (by decide)⟩

/-- C8: starting a paginator whose configuration is invalid in any of
the checked ways — no pages, missing back or next symbol, missing user
id, non-string info text or jump prompt — only emits the validation
error: the state is returned unchanged (so the session is not running)
and no transport call is made. -/
theorem invalid_config_no_side_effects (p : Paginator) (hrun : p.running = false)
    (hbad : p.pageCount = 0 ∨ p.emojis.back = none ∨ p.emojis.next = none ∨
      p.userID = none ∨ p.infoText = none ∨ p.jumpPrompt = none) :
    ∃ m, validationError p = some m ∧ start p = Except.ok (p, [Effect.emitError m]) := by
  have hne : validationError p ≠ none := by
    intro hnone
    unfold validationError at hnone
    split_ifs at hnone with h1 h2 h3 h4 h5 h6
    rcases hbad with h | h | h | h | h | h
    · exact h2 h
    · exact absurd h3.1 (by simp [h])
    · exact absurd h3.2 (by simp [h])
    · exact h4 (by simp [h])
    · exact h5 (by simp [h])
    · exact h6 (by simp [h])
  obtain ⟨m, hm⟩ := Option.ne_none_iff_exists'.mp hne
  refine ⟨m, hm, ?_⟩
  unfold start
  rw [if_neg (show ¬(p.running = true) by simp [hrun]), hm]

/-- Witness for C8: the default construction has an empty page set, and
starting it emits the validation error with no other effect. -/
theorem invalid_config_no_side_effects_witness :
    defaultPaginator.pageCount = 0 ∧
    (∃ m, validationError defaultPaginator = some m ∧
      start defaultPaginator = Except.ok (defaultPaginator, [Effect.emitError m])) :=
  ⟨by decide,
    invalid_config_no_side_effects defaultPaginator (by decide) (Or.inl (by decide))⟩

/-- C9 counterexample: calling `destroy` on a freshly constructed
paginator — the Idle state, before `start` — dereferences the null
collector and fails instead of being safe. -/
theorem destroy_before_start_counterexample :
    defaultPaginator.collectorStops = none ∧
    destroy defaultPaginator = Except.error collectorNullError :=
  ⟨by decide, by decide⟩

/-- C9 (amended): `destroy` succeeds exactly when the collector exists;
it then marks the paginator destroyed, issues one more `stop` on the
collector, and emits the destroyed notification — so a second `destroy`
issues a second stop and a second notification rather than being
skipped, and a `destroy` before `start` fails on the null collector. -/
theorem destroy_behavior (p : Paginator) :
    (p.collectorStops = none → destroy p = Except.error collectorNullError) ∧
    (∀ k, p.collectorStops = some k →
      destroy p = Except.ok ({ p with destroyed := true, collectorStops := some (k + 1) },
        [Effect.stopCollector, Effect.emitEnd "Paginator was destroyed."])) := by
  constructor
  · intro h
    unfold destroy
    rw [h]
  · intro k h
    exact destroy_ok p k h

/-- Witness for the amended C9 on the running session: `destroy` stops
the collector a first time; its result state records one stop. -/
theorem destroy_behavior_witness :
    samplePaginator.collectorStops = some 0 ∧
    destroy samplePaginator = Except.ok
      ({ samplePaginator with destroyed := true, collectorStops := some 1 },
        [Effect.stopCollector, Effect.emitEnd "Paginator was destroyed."]) :=
  ⟨by decide, (destroy_behavior samplePaginator).2 0 (by decide)⟩

/-! ### Page-number substitution (C10) -/

/-- C10: `_renderPageNumber` substitutes only the first occurrence of
`"{0}"` (by the 1-based page number) and then only the first occurrence
of `"{1}"` (by the page count) — stated for an arbitrary decomposition
marking the first occurrence of each placeholder; the suffixes `b` and
`d`, which may contain further occurrences, are preserved verbatim. -/
theorem render_page_number_first_occurrence (idx cnt : Int) (a b c d : List Char)
    (h0 : ∀ i, i < a.length →
      ("{0}".data.isPrefixOf ((a ++ ("{0}".data ++ b)).drop i)) = false)
    (hmid : a ++ ((toString (idx + 1)).data ++ b) = c ++ ("{1}".data ++ d))
    (h1 : ∀ i, i < c.length →
      ("{1}".data.isPrefixOf ((c ++ ("{1}".data ++ d)).drop i)) = false) :
    (renderPageNumber idx cnt (String.mk (a ++ ("{0}".data ++ b)))).data
      = c ++ ((toString cnt).data ++ d) := by
  have hinner : replaceFirstL ("{0}".data) ((toString (idx + 1)).data)
      (a ++ ("{0}".data ++ b)) = a ++ ((toString (idx + 1)).data ++ b) :=
    replaceFirstL_firstOcc _ _ a b (by decide) h0
  show replaceFirstL ("{1}".data) ((toString cnt).data)
      (replaceFirstL ("{0}".data) ((toString (idx + 1)).data) (a ++ ("{0}".data ++ b)))
      = c ++ ((toString cnt).data ++ d)
  rw [hinner, hmid]
  exact replaceFirstL_firstOcc _ _ c d (by decide) h1

/-- Witness for C10: rendering `"p{0}q{0}r{1}s{1}"` at index 0 of 9
pages replaces only the first `"{0}"` and the first `"{1}"`, leaving the
later occurrences literal. -/
theorem render_page_number_first_occurrence_witness :
    (∀ i, i < ("p".data).length →
      ("{0}".data.isPrefixOf ((("p".data) ++ ("{0}".data ++ "q{0}r{1}s{1}".data)).drop i))
        = false) ∧
    (renderPageNumber 0 9 (String.mk ("p".data ++ ("{0}".data ++ "q{0}r{1}s{1}".data)))).data
      = "p1q{0}r".data ++ (("9".data) ++ "s{1}".data) :=
  ⟨by decide,
    render_page_number_first_occurrence 0 9 "p".data "q{0}r{1}s{1}".data "p1q{0}r".data
      "s{1}".data (by decide) (by decide) (by decide)⟩

end DJSPaginator
